import Mathlib

/-!
Shallow embedding of the extended-query protocol engine of
`grafbase/rust-postgres` (files `tokio-postgres/src/{prepare,query,statement}.rs`).

Pure protocol logic is translated into executable Lean definitions; the
asynchronous message channel (`Responses`) becomes an explicit list of decoded
backend messages, and each `await responses.next()` becomes consumption of the
head of that list.  Running out of messages models the channel returning
`Poll::Pending`.  External collaborators that live elsewhere in the repository
(the `postgres-protocol` frontend encoders, `postgres-types`' OID catalog,
`Row::new`, and the `Error` payloads of `error.rs`) are modelled from the spec
at their boundary, each marked with a `Modelled from the spec:` doc comment.
-/

namespace RustPostgres

/-- OIDs are plain `u32` values on the wire. -/
abbrev Oid := Nat

/-- Modelled from the spec: `postgres_types::Type` lives outside `src/`.
The spec only requires a catalog of known types plus a generic text type, so a
representative fragment of the OID table is embedded. -/
inductive PgType
  | bool
  | bytea
  | int8
  | int2
  | int4
  | text
  | varchar
  | numeric
  deriving DecidableEq, Repr

/-- Modelled from the spec: `Type::from_oid` (postgres-types, outside `src/`)
is a fixed finite OID-to-type lookup returning `None` on unknown OIDs. -/
def PgType.from_oid (oid : Oid) : Option PgType :=
  match oid with
  | 16 => some .bool
  | 17 => some .bytea
  | 20 => some .int8
  | 21 => some .int2
  | 23 => some .int4
  | 25 => some .text
  | 1043 => some .varchar
  | 1700 => some .numeric
  | _ => none

/-- `prepare.rs::get_type`: resolve an OID, falling back to `Type::TEXT`. -/
def get_type (oid : Oid) : PgType :=
  match PgType.from_oid oid with
  | some t => t
  | none => PgType.text

/-- One field of a `RowDescription` body (name, table OID, column ordinal,
type OID), as exposed by the backend message's field iterator. -/
structure Field where
  name : String
  tableOid : Nat
  columnId : Int
  typeOid : Oid
  deriving DecidableEq, Repr

instance exceptDecEq {ε α : Type} [DecidableEq ε] [DecidableEq α] :
    DecidableEq (Except ε α) := fun a b =>
  match a, b with
  | .error e, .error f =>
      if h : e = f then isTrue (by rw [h]) else isFalse (by simp [h])
  | .ok x, .ok y =>
      if h : x = y then isTrue (by rw [h]) else isFalse (by simp [h])
  | .error _, .ok _ => isFalse (by simp)
  | .ok _, .error _ => isFalse (by simp)

/-- A `ParameterDescriptionBody` at the boundary of its fallible iterator:
each entry is either a decoded parameter OID or the parse failure the iterator
reports at that point (e.g. a truncated OID list). -/
abbrev PDBody := List (Except String Oid)

/-- A `RowDescriptionBody` at the boundary of its fallible field iterator. -/
abbrev RDBody := List (Except String Field)

/-- An opaque `DataRowBody` payload (raw column bytes). -/
abbrev DataRowBody := List Nat

/-- `statement.rs::Column` (the variant used by `prepare.rs`/`query.rs`). -/
structure Column where
  name : String
  table_oid : Option Nat
  column_id : Option Int
  type_ : PgType
  deriving DecidableEq, Repr

/-- The `Statement` as used by `prepare.rs` and `query.rs`: either unnamed
(empty wire name) or named.  (The copy of `statement.rs` under `src/` is the
historical variant whose unnamed case also retains the query text; that extra
field is irrelevant to every claim and is modelled separately for the drop
behaviour, see `StatementInner`.) -/
inductive Statement
  | unnamed (params : List PgType) (columns : List Column)
  | named (name : String) (params : List PgType) (columns : List Column)
  deriving DecidableEq, Repr

/-- `Statement::params`. -/
def Statement.params : Statement → List PgType
  | .unnamed params _ => params
  | .named _ params _ => params

/-- `Statement::columns`. -/
def Statement.columns : Statement → List Column
  | .unnamed _ columns => columns
  | .named _ _ columns => columns

/-- `Statement::name` (unnamed statements have the empty wire name). -/
def Statement.name : Statement → String
  | .unnamed _ _ => ""
  | .named name _ _ => name

/-- `postgres_types::Format` for result/parameter wire formats. -/
inductive Format
  | text
  | binary
  deriving DecidableEq, Repr

/-- Modelled from the spec: `Row::new` (`row.rs`, outside `src/`) decodes a
`DataRowBody` against the stream's current Statement and chosen output wire
format; at this boundary a row is the triple of those inputs. -/
structure Row where
  statement : Statement
  body : DataRowBody
  format : Format
  deriving DecidableEq, Repr

/-- Modelled from the spec: the `Error` payloads (`error.rs`, outside `src/`).
The spec's error taxonomy: an unexpected-message error carries the offending
message's tag; a parameter-count error reports both counts; a conversion
error reports the zero-based parameter ordinal; parse and encode failures
carry their causes. -/
inductive PgError
  | unexpectedMessage (tag : Char)
  | parse (msg : String)
  | parameters (actual expected : Nat)
  | toSql (msg : String) (idx : Nat)
  | encodeErr (msg : String)
  deriving DecidableEq, Repr

/-- The decoded inbound messages delivered by a request's `Responses` channel
(`postgres_protocol::message::backend::Message`).  `errorResponse` and
`copyInResponse` stand for the message kinds none of the match arms expect. -/
inductive BackendMessage
  | parseComplete
  | bindComplete
  | parameterDescription (body : PDBody)
  | rowDescription (body : RDBody)
  | noData
  | dataRow (body : DataRowBody)
  | commandComplete (tag : String)
  | emptyQueryResponse
  | portalSuspended
  | readyForQuery (status : Nat)
  | errorResponse
  | copyInResponse
  deriving DecidableEq, Repr

/-- The protocol tag byte of each backend message. -/
def tagOf : BackendMessage → Char
  | .parseComplete => '1'
  | .bindComplete => '2'
  | .parameterDescription _ => 't'
  | .rowDescription _ => 'T'
  | .noData => 'n'
  | .dataRow _ => 'D'
  | .commandComplete _ => 'C'
  | .emptyQueryResponse => 'I'
  | .portalSuspended => 's'
  | .readyForQuery _ => 'Z'
  | .errorResponse => 'E'
  | .copyInResponse => 'G'

/-! ## Preparer (`prepare.rs`) -/

/-- The parameter-decoding loop shared by `prepare.rs` (lines 47-52):
`while let Some(oid) = it.next().map_err(Error::parse)? { push(get_type(oid)) }`.
A parse failure of the body's iterator is propagated with `?`. -/
def decodeParams : PDBody → Except PgError (List PgType)
  | [] => .ok []
  | .error e :: _ => .error (.parse e)
  | .ok oid :: rest => do
      let ps ← decodeParams rest
      pure (get_type oid :: ps)

/-- Build one `Column` from a decoded field (`prepare.rs` lines 59-64):
zero table OIDs / column ordinals become `None`
(`Some(x).filter(|n| *n != 0)`), the type OID is resolved with `get_type`. -/
def mkColumn (f : Field) : Column :=
  { name := f.name
    table_oid := if f.tableOid = 0 then none else some f.tableOid
    column_id := if f.columnId = 0 then none else some f.columnId
    type_ := get_type f.typeOid }

/-- The column-decoding loop of `prepare.rs` (lines 55-67); field iterator
failures are propagated with `?`. -/
def decodeColumns : RDBody → Except PgError (List Column)
  | [] => .ok []
  | .error e :: _ => .error (.parse e)
  | .ok f :: rest => do
      let cs ← decodeColumns rest
      pure (mkColumn f :: cs)

/-- `prepare.rs` lines 47-73: decode the parameter and row descriptions into a
`Statement`, unnamed or named per the `unnamed` flag. -/
def buildStatement (unnamed : Bool) (name : String) (pd : PDBody)
    (rd : Option RDBody) : Except PgError Statement := do
  let params ← decodeParams pd
  let columns ← match rd with
    | none => pure ([] : List Column)
    | some rd => decodeColumns rd
  pure (if unnamed then .unnamed params columns else .named name params columns)

/-- Outcome of `prepare`'s response decoding: a statement, an error, or
`pending` when the channel has delivered too few messages so far (the async
function would still be awaiting `responses.next()`). -/
inductive PrepResult
  | ok (s : Statement)
  | err (e : PgError)
  | pending
  deriving DecidableEq, Repr

/-- The response-decoding half of `prepare.rs::prepare` (lines 31-73): strictly
in order, ParseComplete, then ParameterDescription, then RowDescription or
NoData, failing with `Error::unexpected_message(m)` as soon as a step sees any
other message. -/
def prepareDecode (unnamed : Bool) (name : String) :
    List BackendMessage → PrepResult
  | [] => .pending
  | .parseComplete :: rest1 =>
    match rest1 with
    | [] => .pending
    | .parameterDescription pd :: rest2 =>
      match rest2 with
      | [] => .pending
      | .rowDescription rd :: _ =>
        match buildStatement unnamed name pd (some rd) with
        | .ok s => .ok s
        | .error e => .err e
      | .noData :: _ =>
        match buildStatement unnamed name pd none with
        | .ok s => .ok s
        | .error e => .err e
      | m :: _ => .err (.unexpectedMessage (tagOf m))
    | m :: _ => .err (.unexpectedMessage (tagOf m))
  | m :: _ => .err (.unexpectedMessage (tagOf m))

/-! ## Rows-affected extraction (`query.rs::extract_row_affected`) -/

/-- Rust `u64::from_str`: optional leading `+`, then one or more ASCII digits,
rejecting the empty string and values that overflow 64 bits. -/
def parseU64 (s : String) : Option Nat :=
  let cs := s.toList
  let ds := match cs with
    | '+' :: rest => rest
    | _ => cs
  if ds ≠ [] ∧ ds.all (·.isDigit) then
    let n := ds.foldl (fun acc c => 10 * acc + (c.toNat - 48)) 0
    if n < 2 ^ 64 then some n else none
  else none

/-- `tag.rsplit(' ').next().unwrap()`: the substring after the last space
(the whole string when it has no space), computed exactly as `rsplit` does,
from the end of the string. -/
def lastSpaceToken (s : String) : String :=
  String.mk ((s.toList.reverse.takeWhile (fun c => c ≠ ' ')).reverse)

/-- `query.rs::extract_row_affected` (lines 161-171): parse the token after
the last space of the CommandComplete tag as a `u64`, with `unwrap_or(0)`.
(The only `Err` of the source function is a non-UTF-8 tag from `body.tag()`,
which cannot arise once the tag is a string.) -/
def extract_row_affected (tag : String) : Nat :=
  (parseU64 (lastSpaceToken tag)).getD 0

/-! ## Row Stream (`query.rs::RowStream` and its `Stream` impl) -/

/-- The ways `poll_next` can panic: `this.statement.as_ref().unwrap()` on a
`DataRow` with no statement (query.rs line 346),
`this.parameter_description.take().unwrap()` on `NoData`/`RowDescription`
with no stashed parameter description (lines 363 and 369), and the
`.map_err(Error::parse).unwrap()` inside `make_statement` (line 230). -/
inductive PanicKind
  | noStatement
  | noParamDesc
  | paramDecode
  deriving DecidableEq, Repr

/-- A value or a panic. -/
inductive PResult (α : Type)
  | ok (a : α)
  | panicked (k : PanicKind)
  deriving DecidableEq, Repr

/-- The parameter-decoding loop of `query.rs::make_statement` (lines 227-233):
identical to `decodeParams` except that the iterator's `Result` is
`.map_err(Error::parse).unwrap()`ed, so a garbled body panics. -/
def decodeParamsUnwrap : PDBody → PResult (List PgType)
  | [] => .ok []
  | .error _ :: _ => .panicked .paramDecode
  | .ok oid :: rest =>
    match decodeParamsUnwrap rest with
    | .ok ps => .ok (get_type oid :: ps)
    | .panicked k => .panicked k

/-- `query.rs::make_statement` (lines 223-254): build an unnamed `Statement`
from a stashed parameter description and an optional row description.  Field
iterator failures of the row description are propagated (`?`); parameter
iterator failures panic (see `decodeParamsUnwrap`). -/
def make_statement (pd : PDBody) (rd : Option RDBody) :
    PResult (Except PgError Statement) :=
  match decodeParamsUnwrap pd with
  | .panicked k => .panicked k
  | .ok params =>
    match rd with
    | none => .ok (.ok (.unnamed params []))
    | some rd =>
      match decodeColumns rd with
      | .error e => .ok (.error e)
      | .ok columns => .ok (.ok (.unnamed params columns))

/-- The mutable state of a `RowStream` (`query.rs` lines 320-334). -/
structure RowStreamState where
  statement : Option Statement
  rows_affected : Option Nat
  command_tag : Option String
  output_format : Format
  status : Option Nat
  parameter_description : Option PDBody
  deriving DecidableEq, Repr

/-- The `RowStream` as constructed by `query` and `query_txt` (all fields
unset; `query` uses binary output, `query_txt` text output). -/
def RowStreamState.initial (fmt : Format) : RowStreamState :=
  { statement := none, rows_affected := none, command_tag := none
    output_format := fmt, status := none, parameter_description := none }

/-- The `RowStream` as constructed by `query_portal` (statement supplied at
construction, binary output). -/
def RowStreamState.withStatement (st : Statement) : RowStreamState :=
  { statement := some st, rows_affected := none, command_tag := none
    output_format := .binary, status := none, parameter_description := none }

/-- How a fully-consumed `RowStream` finished. -/
inductive RunEnd
  | pending (s : RowStreamState)
  | ended (s : RowStreamState)
  | errored (e : PgError) (s : RowStreamState)
  | panicked (k : PanicKind)
  deriving DecidableEq, Repr

/-- Repeatedly polling `RowStream::poll_next` (`query.rs` lines 339-381) on a
message sequence, collecting the yielded rows.  Each clause mirrors the
corresponding match arm of `poll_next`; consumption follows the `TryStream`
convention of stopping at end-of-stream or at the first `Err` item, and
`pending` models the channel returning `Poll::Pending` (no message available
yet). -/
def runStream (s : RowStreamState) :
    List BackendMessage → List Row × RunEnd
  | [] => ([], .pending s)
  | .dataRow body :: rest =>
    match s.statement with
    | none => ([], .panicked .noStatement)
    | some st =>
      let r := runStream s rest
      (⟨st, body, s.output_format⟩ :: r.1, r.2)
  | .commandComplete tag :: rest =>
      runStream { s with rows_affected := some (extract_row_affected tag),
                         command_tag := some tag } rest
  | .parameterDescription pd :: rest =>
      runStream { s with parameter_description := some pd } rest
  | .noData :: rest =>
    match s.parameter_description with
    | none => ([], .panicked .noParamDesc)
    | some pd =>
      match make_statement pd none with
      | .panicked k => ([], .panicked k)
      | .ok (.error e) =>
          ([], .errored e { s with parameter_description := none })
      | .ok (.ok st) =>
          runStream { s with statement := some st,
                             parameter_description := none } rest
  | .rowDescription rd :: rest =>
    match s.parameter_description with
    | none => ([], .panicked .noParamDesc)
    | some pd =>
      match make_statement pd (some rd) with
      | .panicked k => ([], .panicked k)
      | .ok (.error e) =>
          ([], .errored e { s with parameter_description := none })
      | .ok (.ok st) =>
          runStream { s with statement := some st,
                             parameter_description := none } rest
  | .emptyQueryResponse :: rest => runStream s rest
  | .portalSuspended :: rest => runStream s rest
  | .readyForQuery stat :: _ => ([], .ended { s with status := some stat })
  | .parseComplete :: _ =>
      ([], .errored (.unexpectedMessage (tagOf .parseComplete)) s)
  | .bindComplete :: _ =>
      ([], .errored (.unexpectedMessage (tagOf .bindComplete)) s)
  | .errorResponse :: _ =>
      ([], .errored (.unexpectedMessage (tagOf .errorResponse)) s)
  | .copyInResponse :: _ =>
      ([], .errored (.unexpectedMessage (tagOf .copyInResponse)) s)

/-- Outcome of `query.rs::start`'s drain loop. -/
inductive StartOut
  | ok (rest : List BackendMessage)
  | err (e : PgError)
  | pending
  deriving DecidableEq, Repr

/-- `query.rs::start` (lines 211-221) after sending the buffer: drain and
discard `ParseComplete`, stop (consuming the message) at `BindComplete` or
`ReadyForQuery`, and fail with an unexpected-message error otherwise. -/
def startDrain : List BackendMessage → StartOut
  | [] => .pending
  | .parseComplete :: rest => startDrain rest
  | .bindComplete :: rest => .ok rest
  | .readyForQuery _ :: rest => .ok rest
  | m :: _ => .err (.unexpectedMessage (tagOf m))

/-! ## Typed execution encode path (`query.rs::encode`/`encode_bind`) -/

/-- Outbound frontend messages, identified by their request content (the
byte-level framing of `postgres-protocol` is outside this boundary). -/
inductive FrontendMsg
  | parse (name query : String) (paramOids : List Oid)
  | bind (portal stmtName : String) (paramFormats : List Nat)
      (resultFormat : Option Nat)
  | describe (kind : Char) (name : String)
  | execute (portal : String) (maxRows : Nat)
  | close (kind : Char) (name : String)
  | sync
  deriving DecidableEq, Repr

/-- A parameter value at the `to_sql_checked` boundary: its value-to-wire
conversion either yields SQL NULL, yields encoded bytes, or fails. -/
inductive ParamConv
  | null
  | value (bytes : List Nat)
  | fail (msg : String)
  deriving DecidableEq, Repr

/-- One caller-supplied typed parameter: the outcome of its value-to-wire
conversion and the wire format its `encode_format` picks (0 text, 1 binary). -/
structure Param where
  conv : ParamConv
  format : Nat
  deriving DecidableEq, Repr

/-- `postgres_protocol::message::frontend::BindError`. -/
inductive BindError
  | conversion (msg : String)
  | serialization (msg : String)
  deriving DecidableEq, Repr

/-- Zero-based index and message of the first parameter whose conversion
fails, if any. -/
def firstConvFail : Nat → List Param → Option (Nat × String)
  | _, [] => none
  | i, p :: ps =>
    match p.conv with
    | .fail msg => some (i, msg)
    | _ => firstConvFail (i + 1) ps

/-- `true` iff the string cannot be written as a protocol C string. -/
def hasNulByte (s : String) : Bool :=
  s.toList.contains (Char.ofNat 0)

/-- Modelled from the spec: `frontend::bind` (postgres-protocol, outside
`src/`) serializes the Bind message, aborting with `BindError::Conversion` at
the first parameter whose conversion closure fails, and reporting lower-level
framing failures (here: a portal or statement name that is not a valid
C string) as the distinct `BindError::Serialization`. -/
def frontend_bind (portal stmtName : String) (params : List Param) :
    Except BindError Unit :=
  if hasNulByte portal || hasNulByte stmtName then
    .error (.serialization "invalid message body")
  else
    match firstConvFail 0 params with
    | some (_, msg) => .error (.conversion msg)
    | none => .ok ()

/-- `query.rs::encode_bind` (lines 271-318): check the parameter count first
(`Error::parameters(actual, expected)` before anything is sent), then encode
the Bind message; `BindError::Conversion` becomes `Error::to_sql` carrying
`error_idx`, the index the conversion closure recorded for the (first)
failing parameter, and `BindError::Serialization` becomes `Error::encode`. -/
def encode_bind (statement : Statement) (params : List Param)
    (portal : String) : Except PgError (List FrontendMsg) :=
  if statement.params.length ≠ params.length then
    .error (.parameters params.length statement.params.length)
  else
    let error_idx := ((firstConvFail 0 params).map Prod.fst).getD 0
    match frontend_bind portal statement.name params with
    | .ok _ =>
        .ok [.bind portal statement.name (params.map Param.format) (some 1)]
    | .error (.conversion e) => .error (.toSql e error_idx)
    | .error (.serialization e) => .error (.encodeErr e)

/-- `query.rs::encode` (lines 256-269): one outbound buffer holding
Bind, Execute(portal "", unlimited rows), Sync. -/
def encode (statement : Statement) (params : List Param) :
    Except PgError (List FrontendMsg) := do
  let b ← encode_bind statement params ""
  pure (b ++ [.execute "" 0, .sync])

/-- The buffers `query.rs::query` hands to `client.send` (via `start`):
`encode` runs first and nothing is sent when it fails. -/
def querySends (statement : Statement) (params : List Param) :
    List (List FrontendMsg) :=
  match encode statement params with
  | .error _ => []
  | .ok buf => [buf]

/-- The buffers `query.rs::execute` hands to `client.send`: the same encode
path as `query`. -/
def executeSends (statement : Statement) (params : List Param) :
    List (List FrontendMsg) :=
  match encode statement params with
  | .error _ => []
  | .ok buf => [buf]

/-! ## Statement lifecycle (`statement.rs`) -/

/-- `statement.rs::StatementInner` (the variant under `src/`, whose unnamed
case retains the query text).  The `Weak<InnerClient>` back-reference is
modelled by whether `upgrade()` succeeds. -/
inductive StatementInner
  | unnamed (query : String) (params : List PgType) (columns : List Column)
  | named (clientAlive : Bool) (name : String) (params : List PgType)
      (columns : List Column)
  deriving DecidableEq, Repr

/-- A request submitted to the connection's outbound queue
(`RequestMessages::Single(FrontendMessage::Raw(buf))`). -/
inductive Request
  | raw (msgs : List FrontendMsg)
  deriving DecidableEq, Repr

/-- The requests `Drop for StatementInner` (statement.rs lines 29-42)
submits.  Rust runs this destructor exactly once, when the last `Arc` owner
of the statement is dropped.  The send's result is discarded (`let _ =`);
no response is awaited or inspected. -/
def statementDropEffect : StatementInner → List Request
  | .named true name _ _ => [.raw [.close 'S' name, .sync]]
  | .named false _ _ _ => []
  | .unnamed _ _ _ => []

/-- Dropping the last owner of a statement, observed on the connection's
outbound queue: the destructor's requests are appended and nothing else about
the connection changes. -/
def dropStatementInner (queue : List Request) (s : StatementInner) :
    List Request :=
  queue ++ statementDropEffect s

/-! ## Helper predicates for the Row Stream claims -/

/-- Messages whose processing sets one of the stream's metadata accessors
(`rows_affected`/`command_tag` from CommandComplete, `status` from
ReadyForQuery). -/
def setsMeta : BackendMessage → Bool
  | .commandComplete _ => true
  | .readyForQuery _ => true
  | _ => false

/-- Is this message a ReadyForQuery? -/
def isReadyForQuery : BackendMessage → Bool
  | .readyForQuery _ => true
  | _ => false

/-- Well-formed inbound sequences for a stream that currently
has a statement iff `haveStmt` and a stashed parameter description iff
`havePD`: a statement is known before every DataRow, and a parameter
description is stashed before every NoData/RowDescription.  Messages at and
after the first stream-terminating message (ReadyForQuery, or an unexpected
message, which ends consumption with an error) are unconstrained. -/
def wfSeq (haveStmt havePD : Bool) : List BackendMessage → Bool
  | [] => true
  | .dataRow _ :: rest => haveStmt && wfSeq haveStmt havePD rest
  | .parameterDescription _ :: rest => wfSeq haveStmt true rest
  | .noData :: rest => havePD && wfSeq true false rest
  | .rowDescription _ :: rest => havePD && wfSeq true false rest
  | .commandComplete _ :: rest => wfSeq haveStmt havePD rest
  | .emptyQueryResponse :: rest => wfSeq haveStmt havePD rest
  | .portalSuspended :: rest => wfSeq haveStmt havePD rest
  | .readyForQuery _ :: _ => true
  | .parseComplete :: _ => true
  | .bindComplete :: _ => true
  | .errorResponse :: _ => true
  | .copyInResponse :: _ => true

/-- The stream state a finished run leaves behind, when it did not panic. -/
def endState : RunEnd → Option RowStreamState
  | .pending s => some s
  | .ended s => some s
  | .errored _ s => some s
  | .panicked _ => none

/-- All three metadata accessors still report "not yet known". -/
def accessorsNone (s : RowStreamState) : Prop :=
  s.rows_affected = none ∧ s.command_tag = none ∧ s.status = none

/-! ## Shared lemmas -/

/-- A parameter description whose iterator never fails decodes (on the
Preparer's path) to the OID-wise resolved types. -/
theorem decodeParams_ok (oids : List Oid) :
    decodeParams (oids.map Except.ok) = .ok (oids.map get_type) := by
  induction oids with
  | nil => rfl
  | cons o os ih => simp [decodeParams, ih]

/-- A parameter description whose iterator never fails decodes (on the Row
Stream's path) to the OID-wise resolved types, without panicking. -/
theorem decodeParamsUnwrap_ok (oids : List Oid) :
    decodeParamsUnwrap (oids.map Except.ok) = .ok (oids.map get_type) := by
  induction oids with
  | nil => rfl
  | cons o os ih => simp [decodeParamsUnwrap, ih]

/-- A row description whose field iterator never fails decodes to the
field-wise columns. -/
theorem decodeColumns_ok (fields : List Field) :
    decodeColumns (fields.map Except.ok) = .ok (fields.map mkColumn) := by
  induction fields with
  | nil => rfl
  | cons f fs ih => simp [decodeColumns, ih]

/-- The only panic `decodeParamsUnwrap` can raise is the parameter-decode
unwrap. -/
theorem decodeParamsUnwrap_panicKind : ∀ (pd : PDBody) (k : PanicKind),
    decodeParamsUnwrap pd = .panicked k → k = .paramDecode := by
  intro pd
  induction pd with
  | nil => intro k h; simp [decodeParamsUnwrap] at h
  | cons x rest ih =>
    intro k h
    cases x with
    | error e =>
      simp [decodeParamsUnwrap] at h
      exact h.symm
    | ok oid =>
      simp only [decodeParamsUnwrap] at h
      cases hr : decodeParamsUnwrap rest with
      | ok ps => rw [hr] at h; simp at h
      | panicked k2 =>
        rw [hr] at h
        simp at h
        subst h
        exact ih k2 hr

/-- The only panic `make_statement` can raise is the parameter-decode
unwrap. -/
theorem make_statement_panicKind (pd : PDBody) (rd : Option RDBody)
    (k : PanicKind) (h : make_statement pd rd = .panicked k) :
    k = .paramDecode := by
  unfold make_statement at h
  cases hdp : decodeParamsUnwrap pd with
  | panicked k2 =>
    rw [hdp] at h
    simp at h
    subst h
    exact decodeParamsUnwrap_panicKind pd k2 hdp
  | ok params =>
    rw [hdp] at h
    cases rd with
    | none => simp at h
    | some rd =>
      cases hdc : decodeColumns rd with
      | error e => simp [hdc] at h
      | ok cols => simp [hdc] at h

/-- The token after the last space of `pre ++ " " ++ last` is `last`,
whenever `last` itself contains no space. -/
theorem lastSpaceToken_append (pre last : String) (h : ' ' ∉ last.toList) :
    lastSpaceToken (pre ++ " " ++ last) = last := by
  have hsplit : (pre ++ " " ++ last).toList = pre.toList ++ ' ' :: last.toList := by
    simp [String.toList]
  have hall : last.toList.reverse.takeWhile (fun c => c ≠ ' ')
      = last.toList.reverse := by
    rw [List.takeWhile_eq_self_iff]
    intro a ha
    simp only [List.mem_reverse] at ha
    simp only [ne_eq, decide_eq_true_eq]
    exact fun hc => h (hc ▸ ha)
  unfold lastSpaceToken
  rw [hsplit]
  rw [show (pre.toList ++ ' ' :: last.toList).reverse
      = last.toList.reverse ++ ' ' :: pre.toList.reverse by simp]
  rw [List.takeWhile_append, hall]
  rw [if_pos rfl]
  simp only [List.takeWhile_cons]
  norm_num

/-- A string without spaces is its own last-space token. -/
theorem lastSpaceToken_no_space (tag : String) (h : ' ' ∉ tag.toList) :
    lastSpaceToken tag = tag := by
  have hall : tag.toList.reverse.takeWhile (fun c => c ≠ ' ')
      = tag.toList.reverse := by
    rw [List.takeWhile_eq_self_iff]
    intro a ha
    simp only [List.mem_reverse] at ha
    simp only [ne_eq, decide_eq_true_eq]
    exact fun hc => h (hc ▸ ha)
  unfold lastSpaceToken
  rw [hall, List.reverse_reverse]
  cases tag
  rfl

/-- A run can only end (yield end-of-sequence) by consuming a ReadyForQuery,
and the ending state always carries the captured status byte. -/
theorem runStream_ended_rfq : ∀ (msgs : List BackendMessage)
    (s : RowStreamState) (s' : RowStreamState),
    (runStream s msgs).2 = .ended s' →
    msgs.any isReadyForQuery = true ∧ s'.status.isSome = true := by
  intro msgs
  induction msgs with
  | nil => intro s s' h; simp [runStream] at h
  | cons m rest ih =>
    intro s s' h
    cases m with
    | dataRow body =>
      cases hst : s.statement with
      | none => simp [runStream, hst] at h
      | some st =>
        simp only [runStream, hst] at h
        have := ih s s' h
        simpa [isReadyForQuery] using this
    | commandComplete tag =>
      simp only [runStream] at h
      have := ih _ s' h
      simpa [isReadyForQuery] using this
    | parameterDescription pd =>
      simp only [runStream] at h
      have := ih _ s' h
      simpa [isReadyForQuery] using this
    | noData =>
      cases hpd : s.parameter_description with
      | none => simp [runStream, hpd] at h
      | some pd =>
        simp only [runStream, hpd] at h
        cases hms : make_statement pd none with
        | panicked k => simp [hms] at h
        | ok r =>
          cases r with
          | error e => simp [hms] at h
          | ok st =>
            simp only [hms] at h
            have := ih _ s' h
            simpa [isReadyForQuery] using this
    | rowDescription rd =>
      cases hpd : s.parameter_description with
      | none => simp [runStream, hpd] at h
      | some pd =>
        simp only [runStream, hpd] at h
        cases hms : make_statement pd (some rd) with
        | panicked k => simp [hms] at h
        | ok r =>
          cases r with
          | error e => simp [hms] at h
          | ok st =>
            simp only [hms] at h
            have := ih _ s' h
            simpa [isReadyForQuery] using this
    | emptyQueryResponse =>
      simp only [runStream] at h
      have := ih _ s' h
      simpa [isReadyForQuery] using this
    | portalSuspended =>
      simp only [runStream] at h
      have := ih _ s' h
      simpa [isReadyForQuery] using this
    | readyForQuery stat =>
      simp only [runStream, RunEnd.ended.injEq] at h
      subst h
      simp [isReadyForQuery]
    | parseComplete => simp [runStream] at h
    | bindComplete => simp [runStream] at h
    | errorResponse => simp [runStream] at h
    | copyInResponse => simp [runStream] at h

/-- Processing only messages that set no metadata accessor leaves all three
accessors unset. -/
theorem runStream_meta_preserved : ∀ (msgs : List BackendMessage)
    (s s' : RowStreamState),
    (msgs.all fun m => !setsMeta m) = true →
    accessorsNone s →
    endState (runStream s msgs).2 = some s' →
    accessorsNone s' := by
  intro msgs
  induction msgs with
  | nil =>
    intro s s' _ hs h
    simp [runStream, endState] at h
    exact h ▸ hs
  | cons m rest ih =>
    intro s s' hall hs h
    simp only [List.all_cons, Bool.and_eq_true] at hall
    cases m with
    | dataRow body =>
      cases hst : s.statement with
      | none => simp [runStream, hst, endState] at h
      | some st =>
        simp only [runStream, hst] at h
        exact ih s s' hall.2 hs h
    | commandComplete tag => simp [setsMeta] at hall
    | readyForQuery stat => simp [setsMeta] at hall
    | parameterDescription pd =>
      simp only [runStream] at h
      refine ih _ s' hall.2 ?_ h
      exact hs
    | noData =>
      cases hpd : s.parameter_description with
      | none => simp [runStream, hpd, endState] at h
      | some pd =>
        simp only [runStream, hpd] at h
        cases hms : make_statement pd none with
        | panicked k => simp [hms, endState] at h
        | ok r =>
          cases r with
          | error e =>
            simp [hms, endState] at h
            exact h ▸ hs
          | ok st =>
            simp only [hms] at h
            exact ih { s with statement := some st, parameter_description := none }
              s' hall.2 ⟨hs.1, hs.2.1, hs.2.2⟩ h
    | rowDescription rd =>
      cases hpd : s.parameter_description with
      | none => simp [runStream, hpd, endState] at h
      | some pd =>
        simp only [runStream, hpd] at h
        cases hms : make_statement pd (some rd) with
        | panicked k => simp [hms, endState] at h
        | ok r =>
          cases r with
          | error e =>
            simp [hms, endState] at h
            exact h ▸ hs
          | ok st =>
            simp only [hms] at h
            exact ih { s with statement := some st, parameter_description := none }
              s' hall.2 ⟨hs.1, hs.2.1, hs.2.2⟩ h
    | emptyQueryResponse =>
      simp only [runStream] at h
      exact ih _ s' hall.2 hs h
    | portalSuspended =>
      simp only [runStream] at h
      exact ih _ s' hall.2 hs h
    | parseComplete =>
      simp [runStream, endState] at h
      exact h ▸ hs
    | bindComplete =>
      simp [runStream, endState] at h
      exact h ▸ hs
    | errorResponse =>
      simp [runStream, endState] at h
      exact h ▸ hs
    | copyInResponse =>
      simp [runStream, endState] at h
      exact h ▸ hs

/-- Under a well-formed inbound sequence, a run never reaches either
unwrap-on-`None` panic branch of `poll_next`. -/
theorem runStream_wf_no_nonePanic : ∀ (msgs : List BackendMessage)
    (s : RowStreamState),
    wfSeq s.statement.isSome s.parameter_description.isSome msgs = true →
    (runStream s msgs).2 ≠ RunEnd.panicked .noStatement ∧
    (runStream s msgs).2 ≠ RunEnd.panicked .noParamDesc := by
  intro msgs
  induction msgs with
  | nil => intro s _; simp [runStream]
  | cons m rest ih =>
    intro s hwf
    cases m with
    | dataRow body =>
      simp only [wfSeq, Bool.and_eq_true] at hwf
      cases hst : s.statement with
      | none => rw [hst] at hwf; simp at hwf
      | some st =>
        simp only [runStream, hst]
        exact ih s (by rw [hst] at hwf ⊢; exact hwf.2)
    | commandComplete tag =>
      simp only [wfSeq] at hwf
      simp only [runStream]
      exact ih _ hwf
    | parameterDescription pd =>
      simp only [wfSeq] at hwf
      simp only [runStream]
      exact ih { s with parameter_description := some pd } hwf
    | noData =>
      simp only [wfSeq, Bool.and_eq_true] at hwf
      cases hpd : s.parameter_description with
      | none => rw [hpd] at hwf; simp at hwf
      | some pd =>
        simp only [runStream, hpd]
        cases hms : make_statement pd none with
        | panicked k =>
          have hk := make_statement_panicKind pd none k hms
          subst hk
          simp
        | ok r =>
          cases r with
          | error e => simp
          | ok st =>
            exact ih { s with statement := some st, parameter_description := none } hwf.2
    | rowDescription rd =>
      simp only [wfSeq, Bool.and_eq_true] at hwf
      cases hpd : s.parameter_description with
      | none => rw [hpd] at hwf; simp at hwf
      | some pd =>
        simp only [runStream, hpd]
        cases hms : make_statement pd (some rd) with
        | panicked k =>
          have hk := make_statement_panicKind pd (some rd) k hms
          subst hk
          simp
        | ok r =>
          cases r with
          | error e => simp
          | ok st =>
            exact ih { s with statement := some st, parameter_description := none } hwf.2
    | emptyQueryResponse =>
      simp only [wfSeq] at hwf
      simp only [runStream]
      exact ih s hwf
    | portalSuspended =>
      simp only [wfSeq] at hwf
      simp only [runStream]
      exact ih s hwf
    | readyForQuery stat => simp [runStream]
    | parseComplete => simp [runStream]
    | bindComplete => simp [runStream]
    | errorResponse => simp [runStream]
    | copyInResponse => simp [runStream]

/-! ## Claim theorems -/

/-- C1: polling a Row Stream behaves as the state-machine table: a DataRow
yields exactly one row decoded against the stream's current Statement and
output format; CommandComplete, ParameterDescription, NoData, RowDescription,
EmptyQueryResponse and PortalSuspended yield nothing and continue;
ReadyForQuery ends the stream; any other message terminates consumption with
an unexpected-message error before any further rows; and the inbound sequence
[BindComplete, DataRow, DataRow, CommandComplete "SELECT 2", ReadyForQuery]
(whose BindComplete is drained by `start`) yields exactly two rows and then
rows_affected = 2 and a ready status, with no further items. -/
theorem c1_row_stream_state_machine :
    (∀ (st : Statement) (ra : Option Nat) (ct : Option String) (fmt : Format)
        (stat : Option Nat) (pd : Option PDBody) (body : DataRowBody)
        (rest : List BackendMessage),
      runStream ⟨some st, ra, ct, fmt, stat, pd⟩ (.dataRow body :: rest)
        = ((⟨st, body, fmt⟩ : Row) ::
            (runStream ⟨some st, ra, ct, fmt, stat, pd⟩ rest).1,
           (runStream ⟨some st, ra, ct, fmt, stat, pd⟩ rest).2)) ∧
    (∀ s tag rest, runStream s (.commandComplete tag :: rest)
        = runStream { s with rows_affected := some (extract_row_affected tag),
                             command_tag := some tag } rest) ∧
    (∀ s pd rest, runStream s (.parameterDescription pd :: rest)
        = runStream { s with parameter_description := some pd } rest) ∧
    (∀ (st? : Option Statement) (ra : Option Nat) (ct : Option String)
        (fmt : Format) (stat : Option Nat) (oids : List Oid)
        (rest : List BackendMessage),
      runStream ⟨st?, ra, ct, fmt, stat, some (oids.map Except.ok)⟩
          (.noData :: rest)
        = runStream ⟨some (.unnamed (oids.map get_type) []),
                     ra, ct, fmt, stat, none⟩ rest) ∧
    (∀ (st? : Option Statement) (ra : Option Nat) (ct : Option String)
        (fmt : Format) (stat : Option Nat) (oids : List Oid)
        (fields : List Field) (rest : List BackendMessage),
      runStream ⟨st?, ra, ct, fmt, stat, some (oids.map Except.ok)⟩
          (.rowDescription (fields.map Except.ok) :: rest)
        = runStream ⟨some (.unnamed (oids.map get_type) (fields.map mkColumn)),
                     ra, ct, fmt, stat, none⟩ rest) ∧
    (∀ s rest, runStream s (.emptyQueryResponse :: rest) = runStream s rest) ∧
    (∀ s rest, runStream s (.portalSuspended :: rest) = runStream s rest) ∧
    (∀ s stat rest, runStream s (.readyForQuery stat :: rest)
        = ([], .ended { s with status := some stat })) ∧
    (∀ s rest, runStream s (.errorResponse :: rest)
        = ([], .errored (.unexpectedMessage 'E') s)) ∧
    (∀ s rest, runStream s (.copyInResponse :: rest)
        = ([], .errored (.unexpectedMessage 'G') s)) ∧
    (∀ s rest, runStream s (.bindComplete :: rest)
        = ([], .errored (.unexpectedMessage '2') s)) ∧
    (∀ s rest, runStream s (.parseComplete :: rest)
        = ([], .errored (.unexpectedMessage '1') s)) ∧
    (∀ (st : Statement) (b1 b2 : DataRowBody) (stat : Nat),
      startDrain [.bindComplete, .dataRow b1, .dataRow b2,
                  .commandComplete "SELECT 2", .readyForQuery stat]
        = .ok [.dataRow b1, .dataRow b2, .commandComplete "SELECT 2",
               .readyForQuery stat] ∧
      runStream (RowStreamState.withStatement st)
          [.dataRow b1, .dataRow b2, .commandComplete "SELECT 2",
           .readyForQuery stat]
        = ([⟨st, b1, .binary⟩, ⟨st, b2, .binary⟩],
           .ended ⟨some st, some 2, some "SELECT 2", .binary, some stat, none⟩)) := by
  refine ⟨fun st ra ct fmt stat pd body rest => rfl,
          fun s tag rest => rfl,
          fun s pd rest => rfl,
          ?_, ?_,
          fun s rest => rfl,
          fun s rest => rfl,
          fun s stat rest => rfl,
          fun s rest => rfl,
          fun s rest => rfl,
          fun s rest => rfl,
          fun s rest => rfl,
          fun st b1 b2 stat => ⟨rfl, rfl⟩⟩
  · intro st? ra ct fmt stat oids rest
    simp [runStream, make_statement, decodeParamsUnwrap_ok]
  · intro st? ra ct fmt stat oids fields rest
    simp [runStream, make_statement, decodeParamsUnwrap_ok, decodeColumns_ok]

/-- C2 is refuted as stated: after a CommandComplete has been processed but
before ReadyForQuery arrives, the stream is not yet exhausted (the run is
pending on the channel), yet rows_affected already reports `some 3` and
command_tag `some "UPDATE 3"` — the accessors do not report "not yet known"
until exhaustion. -/
theorem c2_counterexample :
    runStream (RowStreamState.withStatement (.unnamed [] []))
        [.commandComplete "UPDATE 3"]
      = ([], .pending ⟨some (.unnamed [] []), some 3, some "UPDATE 3",
                       .binary, none, none⟩) := by
  rfl

/-- C2 (amended): the stream ends exactly when ReadyForQuery is observed —
ReadyForQuery immediately ends it, and a run can only end by consuming a
ReadyForQuery, after which ready_status is set; the accessors report None
until the message that supplies them has been processed (CommandComplete for
rows_affected/command_tag, ReadyForQuery for ready_status), but
rows_affected and command_tag become set as soon as their CommandComplete is
processed, which can be before exhaustion. -/
theorem c2_stream_end_and_accessors :
    (∀ s stat rest, runStream s (.readyForQuery stat :: rest)
        = ([], .ended { s with status := some stat })) ∧
    (∀ msgs (s s' : RowStreamState), (runStream s msgs).2 = .ended s' →
        msgs.any isReadyForQuery = true ∧ s'.status.isSome = true) ∧
    (∀ s tag rest, runStream s (.commandComplete tag :: rest)
        = runStream { s with rows_affected := some (extract_row_affected tag),
                             command_tag := some tag } rest) ∧
    (∀ msgs (s s' : RowStreamState), (msgs.all fun m => !setsMeta m) = true →
        accessorsNone s → endState (runStream s msgs).2 = some s' →
        accessorsNone s') := by
  refine ⟨fun s stat rest => rfl, ?_, fun s tag rest => rfl, ?_⟩
  · intro msgs s s' h
    exact runStream_ended_rfq msgs s s' h
  · intro msgs s s' hall hs h
    exact runStream_meta_preserved msgs s s' hall hs h

/-- Concrete instantiation discharging the hypotheses of the amended stream
end/accessor theorem: a one-message ReadyForQuery run ends with the status
set, and a metadata-free run leaves all accessors unset. -/
theorem c2_witness :
    (([BackendMessage.readyForQuery 73].any isReadyForQuery = true) ∧
      (RowStreamState.mk (some (Statement.unnamed [] [])) none none
        Format.binary (some 73) none).status.isSome = true) ∧
    accessorsNone (RowStreamState.withStatement (Statement.unnamed [] [])) :=
  ⟨c2_stream_end_and_accessors.2.1 [.readyForQuery 73]
      (RowStreamState.withStatement (.unnamed [] []))
      ⟨some (.unnamed [] []), none, none, .binary, some 73, none⟩ (by rfl),
   c2_stream_end_and_accessors.2.2.2 [.dataRow []]
      (RowStreamState.withStatement (.unnamed [] []))
      (RowStreamState.withStatement (.unnamed [] []))
      (by decide) ⟨rfl, rfl, rfl⟩ (by rfl)⟩

/-- C3 names a code bug: on a garbled parameter-description list (its
iterator reports a parse failure), the Row Stream's mid-stream Statement
materialization (`make_statement`, reached here through NoData) panics on the
`.map_err(Error::parse).unwrap()` of query.rs line 230 instead of returning
the parse failure, while the Preparer's identical decoding loop
(prepare.rs line 49, using `?`) propagates it to the caller as claimed. -/
theorem c3_decode_error_panics_in_make_statement :
    make_statement [Except.error "unexpected EOF"] none
      = .panicked .paramDecode ∧
    runStream (RowStreamState.initial Format.text)
        [.parameterDescription [Except.error "unexpected EOF"], .noData]
      = ([], .panicked .paramDecode) ∧
    prepareDecode true ""
        [.parseComplete,
         .parameterDescription [Except.error "unexpected EOF"], .noData]
      = .err (.parse "unexpected EOF") :=
  ⟨rfl, rfl, rfl⟩

/-- C4: a typed execution (query or execute) whose caller-supplied parameter
count differs from the statement's declared parameter-type count fails with a
parameter-count error reporting both counts, and nothing is handed to the
connection (no outbound buffer is sent). -/
theorem c4_parameter_count_checked_before_io :
    ∀ (st : Statement) (params : List Param) (portal : String),
      st.params.length ≠ params.length →
      encode_bind st params portal
          = .error (.parameters params.length st.params.length) ∧
      querySends st params = [] ∧
      executeSends st params = [] := by
  intro st params portal h
  have hb : encode_bind st params portal
      = .error (.parameters params.length st.params.length) := by
    simp [encode_bind, h]
  have hb0 : encode_bind st params ""
      = .error (.parameters params.length st.params.length) := by
    simp [encode_bind, h]
  refine ⟨hb, ?_, ?_⟩
  · simp [querySends, encode, hb0]
  · simp [executeSends, encode, hb0]

/-- Concrete instantiation discharging the parameter-count hypothesis: a
one-parameter statement executed with zero parameters. -/
theorem c4_witness :
    encode_bind (Statement.unnamed [PgType.int4] []) [] ""
        = .error (.parameters 0 1) ∧
    querySends (Statement.unnamed [PgType.int4] []) [] = [] ∧
    executeSends (Statement.unnamed [PgType.int4] []) [] = [] :=
  c4_parameter_count_checked_before_io (.unnamed [.int4] []) [] "" (by decide)

/-- C5: rows-affected extraction returns the integer after the last space of
the CommandComplete tag (the whole tag when it has no space) and zero, never
an error, when that trailing token is not a parseable integer; in particular
"DELETE 7" decodes to 7 and "BEGIN" to 0. -/
theorem c5_rows_affected_extraction :
    extract_row_affected "DELETE 7" = 7 ∧
    extract_row_affected "BEGIN" = 0 ∧
    (∀ pre last : String, ' ' ∉ last.toList →
      extract_row_affected (pre ++ " " ++ last) = (parseU64 last).getD 0) ∧
    (∀ tag : String, ' ' ∉ tag.toList →
      extract_row_affected tag = (parseU64 tag).getD 0) := by
  refine ⟨by decide, by decide, ?_, ?_⟩
  · intro pre last h
    unfold extract_row_affected
    rw [lastSpaceToken_append pre last h]
  · intro tag h
    unfold extract_row_affected
    rw [lastSpaceToken_no_space tag h]

/-- Concrete instantiation discharging the no-space hypotheses of the
rows-affected characterization. -/
theorem c5_witness :
    extract_row_affected ("UPDATE" ++ " " ++ "3") = (parseU64 "3").getD 0 ∧
    extract_row_affected "COMMIT" = (parseU64 "COMMIT").getD 0 :=
  ⟨c5_rows_affected_extraction.2.2.1 "UPDATE" "3" (by decide),
   c5_rows_affected_extraction.2.2.2 "COMMIT" (by decide)⟩

/-- C6: prepare decodes responses strictly in order — ParseComplete, then
ParameterDescription, then RowDescription or NoData — and each of the three
steps fails with an unexpected-message error carrying the actual message's
tag when it sees anything else. -/
theorem c6_prepare_strict_order :
    (∀ (u : Bool) (n : String) (m : BackendMessage) rest,
      m ≠ .parseComplete →
      prepareDecode u n (m :: rest) = .err (.unexpectedMessage (tagOf m))) ∧
    (∀ (u : Bool) (n : String) (m : BackendMessage) rest,
      (∀ pd, m ≠ .parameterDescription pd) →
      prepareDecode u n (.parseComplete :: m :: rest)
        = .err (.unexpectedMessage (tagOf m))) ∧
    (∀ (u : Bool) (n : String) (pd : PDBody) (m : BackendMessage) rest,
      (∀ rd, m ≠ .rowDescription rd) → m ≠ .noData →
      prepareDecode u n (.parseComplete :: .parameterDescription pd :: m :: rest)
        = .err (.unexpectedMessage (tagOf m))) ∧
    (∀ (u : Bool) (n : String) (pd : PDBody) (rd : RDBody) rest,
      prepareDecode u n
          (.parseComplete :: .parameterDescription pd :: .rowDescription rd :: rest)
        = match buildStatement u n pd (some rd) with
          | .ok s => .ok s
          | .error e => .err e) ∧
    (∀ (u : Bool) (n : String) (pd : PDBody) rest,
      prepareDecode u n (.parseComplete :: .parameterDescription pd :: .noData :: rest)
        = match buildStatement u n pd none with
          | .ok s => .ok s
          | .error e => .err e) := by
  refine ⟨?_, ?_, ?_, fun u n pd rd rest => rfl, fun u n pd rest => rfl⟩
  · intro u n m rest h
    cases m with
    | parseComplete => exact absurd rfl h
    | bindComplete => rfl
    | parameterDescription pd => rfl
    | rowDescription rd => rfl
    | noData => rfl
    | dataRow b => rfl
    | commandComplete t => rfl
    | emptyQueryResponse => rfl
    | portalSuspended => rfl
    | readyForQuery s => rfl
    | errorResponse => rfl
    | copyInResponse => rfl
  · intro u n m rest h
    cases m with
    | parameterDescription pd => exact absurd rfl (h pd)
    | parseComplete => rfl
    | bindComplete => rfl
    | rowDescription rd => rfl
    | noData => rfl
    | dataRow b => rfl
    | commandComplete t => rfl
    | emptyQueryResponse => rfl
    | portalSuspended => rfl
    | readyForQuery s => rfl
    | errorResponse => rfl
    | copyInResponse => rfl
  · intro u n pd m rest h1 h2
    cases m with
    | rowDescription rd => exact absurd rfl (h1 rd)
    | noData => exact absurd rfl h2
    | parseComplete => rfl
    | bindComplete => rfl
    | parameterDescription pd2 => rfl
    | dataRow b => rfl
    | commandComplete t => rfl
    | emptyQueryResponse => rfl
    | portalSuspended => rfl
    | readyForQuery s => rfl
    | errorResponse => rfl
    | copyInResponse => rfl

/-- Concrete instantiations discharging the unexpected-message hypotheses at
each of the three decode steps. -/
theorem c6_witness :
    prepareDecode true "" [.errorResponse] = .err (.unexpectedMessage 'E') ∧
    prepareDecode true "" [.parseComplete, .bindComplete]
      = .err (.unexpectedMessage '2') ∧
    prepareDecode false "s0" [.parseComplete, .parameterDescription [],
        .commandComplete "SELECT 1"]
      = .err (.unexpectedMessage 'C') :=
  ⟨c6_prepare_strict_order.1 true "" .errorResponse [] (by decide),
   c6_prepare_strict_order.2.1 true "" .bindComplete [] (by intro pd h; cases h),
   c6_prepare_strict_order.2.2.1 false "s0" [] (.commandComplete "SELECT 1") []
     (by intro rd h; cases h) (by decide)⟩

/-- C7: dropping the last owner of a named Statement whose connection is
still alive appends exactly one Close(Statement, name)-then-Sync request to
the connection's outbound queue and changes nothing else about it; when the
weak reference no longer upgrades the drop is a silent no-op; and dropping
an unnamed Statement never enqueues a Close. -/
theorem c7_statement_drop_close :
    (∀ (q : List Request) (name : String) (params : List PgType)
        (cols : List Column),
      dropStatementInner q (.named true name params cols)
        = q ++ [.raw [.close 'S' name, .sync]]) ∧
    (∀ (q : List Request) (name : String) (params : List PgType)
        (cols : List Column),
      (dropStatementInner q (.named true name params cols)).length
        = q.length + 1) ∧
    (∀ (q : List Request) (name : String) (params : List PgType)
        (cols : List Column),
      dropStatementInner q (.named false name params cols) = q) ∧
    (∀ (q : List Request) (query : String) (params : List PgType)
        (cols : List Column),
      dropStatementInner q (.unnamed query params cols) = q) := by
  refine ⟨fun q n p c => rfl, ?_, ?_, ?_⟩
  · intro q n p c
    simp [dropStatementInner, statementDropEffect]
  · intro q n p c
    simp [dropStatementInner, statementDropEffect]
  · intro q qr p c
    simp [dropStatementInner, statementDropEffect]

/-- C8: when some parameter's value-to-wire conversion fails on the typed
path, encoding aborts and the call fails with a conversion error reporting
the zero-based ordinal of the failing (first-failing) parameter, while a
lower-level serialization failure surfaces as the distinct encode error. -/
theorem c8_conversion_error_ordinal :
    (∀ (st : Statement) (params : List Param) (portal : String)
        (idx : Nat) (msg : String),
      st.params.length = params.length →
      hasNulByte portal = false → hasNulByte st.name = false →
      firstConvFail 0 params = some (idx, msg) →
      encode_bind st params portal = .error (.toSql msg idx)) ∧
    (∀ (st : Statement) (params : List Param) (portal : String),
      st.params.length = params.length →
      hasNulByte portal = true →
      encode_bind st params portal
        = .error (.encodeErr "invalid message body")) ∧
    (∀ (msg : String) (idx : Nat) (msg2 : String),
      PgError.toSql msg idx ≠ PgError.encodeErr msg2) := by
  refine ⟨?_, ?_, ?_⟩
  · intro st params portal idx msg hlen hp hn hf
    simp [encode_bind, hlen, frontend_bind, hp, hn, hf]
  · intro st params portal hlen hp
    simp [encode_bind, hlen, frontend_bind, hp]
  · intro msg idx msg2 h
    cases h

/-- Concrete instantiations discharging the conversion-failure and
serialization-failure hypotheses: the second of two parameters fails to
convert (ordinal 1), and a NUL byte in the portal name fails serialization. -/
theorem c8_witness :
    encode_bind (Statement.unnamed [PgType.int4, PgType.int4] [])
        [⟨.null, 1⟩, ⟨.fail "bad value", 1⟩] ""
      = .error (.toSql "bad value" 1) ∧
    encode_bind (Statement.unnamed [] []) [] (String.mk [Char.ofNat 0])
      = .error (.encodeErr "invalid message body") :=
  ⟨c8_conversion_error_ordinal.1 (.unnamed [.int4, .int4] [])
      [⟨.null, 1⟩, ⟨.fail "bad value", 1⟩] "" 1 "bad value"
      (by decide) (by decide) (by decide) (by decide),
   c8_conversion_error_ordinal.2.1 (.unnamed [] []) [] (String.mk [Char.ofNat 0])
      (by decide) (by decide)⟩

/-- C9: type resolution never errors — an OID the catalog knows resolves to
that type, any unknown OID falls back to the generic text type, and both the
parameter-decoding and column-decoding loops resolve every OID through this
total resolution. -/
theorem c9_type_resolution_fallback :
    (∀ (oid : Oid) (t : PgType), PgType.from_oid oid = some t →
      get_type oid = t) ∧
    (∀ oid : Oid, PgType.from_oid oid = none → get_type oid = .text) ∧
    (∀ oids : List Oid,
      decodeParams (oids.map Except.ok) = .ok (oids.map get_type)) ∧
    (∀ fields : List Field,
      decodeColumns (fields.map Except.ok) = .ok (fields.map mkColumn)) ∧
    (∀ f : Field, (mkColumn f).type_ = get_type f.typeOid) := by
  refine ⟨?_, ?_, decodeParams_ok, decodeColumns_ok, fun f => rfl⟩
  · intro oid t h
    unfold get_type
    rw [h]
  · intro oid h
    unfold get_type
    rw [h]

/-- Concrete instantiations discharging the known-OID and unknown-OID
hypotheses of type resolution. -/
theorem c9_witness :
    get_type 23 = PgType.int4 ∧ get_type 424242 = PgType.text :=
  ⟨c9_type_resolution_fallback.1 23 .int4 (by decide),
   c9_type_resolution_fallback.2.1 424242 (by decide)⟩

/-- C10: the poll step panics (unwrap on None) when a DataRow arrives with no
Statement known, or when NoData/RowDescription arrives with no stashed
parameter description; and under the well-formedness precondition — a
parameter description precedes every RowDescription/NoData and a Statement is
known (supplied at construction or materialized in-stream) before every
DataRow — these unwrap-on-None panic branches are unreachable. -/
theorem c10_unwrap_panics_guarded :
    (∀ (ra : Option Nat) (ct : Option String) (fmt : Format)
        (stat : Option Nat) (pd : Option PDBody) (body : DataRowBody)
        (rest : List BackendMessage),
      runStream ⟨none, ra, ct, fmt, stat, pd⟩ (.dataRow body :: rest)
        = ([], .panicked .noStatement)) ∧
    (∀ (st? : Option Statement) (ra : Option Nat) (ct : Option String)
        (fmt : Format) (stat : Option Nat) (rest : List BackendMessage),
      runStream ⟨st?, ra, ct, fmt, stat, none⟩ (.noData :: rest)
        = ([], .panicked .noParamDesc)) ∧
    (∀ (st? : Option Statement) (ra : Option Nat) (ct : Option String)
        (fmt : Format) (stat : Option Nat) (rd : RDBody)
        (rest : List BackendMessage),
      runStream ⟨st?, ra, ct, fmt, stat, none⟩ (.rowDescription rd :: rest)
        = ([], .panicked .noParamDesc)) ∧
    (∀ (msgs : List BackendMessage) (s : RowStreamState),
      wfSeq s.statement.isSome s.parameter_description.isSome msgs = true →
      (runStream s msgs).2 ≠ RunEnd.panicked .noStatement ∧
      (runStream s msgs).2 ≠ RunEnd.panicked .noParamDesc) := by
  refine ⟨fun ra ct fmt stat pd body rest => rfl,
          fun st? ra ct fmt stat rest => rfl,
          fun st? ra ct fmt stat rd rest => rfl,
          runStream_wf_no_nonePanic⟩

/-- Concrete instantiation discharging the well-formedness hypothesis: a
self-describing text-path sequence whose statement is materialized in-stream
before the first DataRow is processed without reaching either panic. -/
theorem c10_witness :
    (runStream (RowStreamState.initial Format.text)
        [.parameterDescription [], .rowDescription [], .dataRow [],
         .readyForQuery 73]).2 ≠ RunEnd.panicked .noStatement ∧
    (runStream (RowStreamState.initial Format.text)
        [.parameterDescription [], .rowDescription [], .dataRow [],
         .readyForQuery 73]).2 ≠ RunEnd.panicked .noParamDesc :=
  c10_unwrap_panics_guarded.2.2.2
    [.parameterDescription [], .rowDescription [], .dataRow [],
     .readyForQuery 73]
    (RowStreamState.initial Format.text) (by decide)

end RustPostgres
